import Mathlib

/-
Verification of the operation-discovery / classification engine and the
generic invocation adapter of `langchain_autotools`
(src/langchain_autotools/langchain_autotools.py), as a shallow embedding.

Modelling conventions:
- Python values are `PyValue` (no floats; generators/iterators are `genV`,
  carrying the finite sequence of values they would produce).
- A raised Python exception is `PyExc` (its class name plus message); catching
  `except AttributeError` is modelled as a check on the class-name string.
- `json.dumps(..., default=str)` is `jsonDumps`; `json.loads` is `jsonLoads`
  (a fueled recursive-descent parser over the JSON fragment the model needs).
- `re.compile` / `Pattern.match` are modelled by a Brzozowski-derivative
  engine over a regex fragment (literals, `.`, classes, `* + ?`, `|`,
  leading `^`, trailing `$`, `\`-escapes); constructs outside the fragment
  fail to compile, as do genuinely malformed patterns (unclosed `[`,
  dangling repeat, trailing backslash), matching `re.error` behaviour on the
  patterns this development evaluates.
- `fnmatch.fnmatch` is modelled as translation of the glob into the same
  regex core followed by a whole-string match, mirroring `fnmatch.translate`.
-/

namespace AutoTools

/-- A raised Python exception: its class name (e.g. `AttributeError`,
`TypeError`) and its message text. -/
structure PyExc where
  cls : String
  msg : String
  deriving DecidableEq, Repr

/-- The Python values the library manipulates.  `genV` is a lazy
iterator/generator together with the finite sequence of values it would
produce when drained. -/
inductive PyValue where
  | noneV
  | boolV (b : Bool)
  | intV (n : Int)
  | strV (s : String)
  | listV (elems : List PyValue)
  | dictV (entries : List (String × PyValue))
  | genV (elems : List PyValue)

/-- JSON escaping of one character, as `json.dumps` performs it for the
characters this model covers. -/
def escChar (c : Char) : String :=
  if c = '"' then "\\\""
  else if c = '\\' then "\\\\"
  else if c = '\n' then "\\n"
  else if c = '\t' then "\\t"
  else if c = '\r' then "\\r"
  else String.singleton c

/-- JSON rendering of a string literal, quotes included. -/
def dumpStr (s : String) : String :=
  "\"" ++ String.join (s.toList.map escChar) ++ "\""

mutual

/-- `json.dumps(v, default=str)`: renders a value with the default
separators `", "` and `": "`.  A value JSON cannot encode (an iterator)
goes through the `default=str` fallback and is rendered as its string
representation. -/
def jsonDumps : PyValue → String
  | .noneV => "null"
  | .boolV true => "true"
  | .boolV false => "false"
  | .intV n => toString n
  | .strV s => dumpStr s
  | .listV es => "[" ++ dumpsList es ++ "]"
  | .dictV kvs => "\x7b" ++ dumpsEntries kvs ++ "\x7d"
  | .genV _ => dumpStr "<iterator>"

/-- Comma-joined rendering of array elements. -/
def dumpsList : List PyValue → String
  | [] => ""
  | [v] => jsonDumps v
  | v :: vs => jsonDumps v ++ ", " ++ dumpsList vs

/-- Comma-joined rendering of object entries. -/
def dumpsEntries : List (String × PyValue) → String
  | [] => ""
  | [(k, v)] => dumpStr k ++ ": " ++ jsonDumps v
  | (k, v) :: kvs => dumpStr k ++ ": " ++ jsonDumps v ++ ", " ++ dumpsEntries kvs

end

/-- Whitespace skipping for the JSON reader. -/
def skipWs : List Char → List Char
  | c :: cs => if c = ' ' ∨ c = '\n' ∨ c = '\t' ∨ c = '\r' then skipWs cs else c :: cs
  | [] => []

/-- Inverse of the escape table used by `dumpStr`. -/
def unescChar (c : Char) : Option Char :=
  if c = '"' then some '"'
  else if c = '\\' then some '\\'
  else if c = '/' then some '/'
  else if c = 'n' then some '\n'
  else if c = 't' then some '\t'
  else if c = 'r' then some '\r'
  else none

/-- Reads a JSON string body after the opening quote; returns the decoded
text and the input following the closing quote. -/
def parseStrBody : List Char → Option (String × List Char)
  | [] => none
  | '"' :: cs => some ("", cs)
  | '\\' :: e :: cs => do
      let c ← unescChar e
      let (s, rest) ← parseStrBody cs
      some (String.singleton c ++ s, rest)
  | c :: cs => do
      let (s, rest) ← parseStrBody cs
      some (String.singleton c ++ s, rest)

/-- Splits a maximal run of decimal digits off the input. -/
def takeDigits : List Char → List Char × List Char
  | c :: cs =>
      if c.isDigit then
        let (ds, rest) := takeDigits cs
        (c :: ds, rest)
      else ([], c :: cs)
  | [] => ([], [])

/-- Numeric value of a digit run. -/
def digitsToNat (ds : List Char) : Nat :=
  ds.foldl (fun acc c => acc * 10 + (c.toNat - '0'.toNat)) 0

mutual

/-- One JSON value (fueled recursive descent, modelling `json.loads`). -/
def parseVal : Nat → List Char → Option (PyValue × List Char)
  | 0, _ => none
  | fuel + 1, cs =>
    match skipWs cs with
    | [] => none
    | 'n' :: 'u' :: 'l' :: 'l' :: rest => some (.noneV, rest)
    | 't' :: 'r' :: 'u' :: 'e' :: rest => some (.boolV true, rest)
    | 'f' :: 'a' :: 'l' :: 's' :: 'e' :: rest => some (.boolV false, rest)
    | '"' :: rest => do
        let (s, rest2) ← parseStrBody rest
        some (.strV s, rest2)
    | '[' :: rest =>
        (match skipWs rest with
         | ']' :: rest2 => some (.listV [], rest2)
         | _ => do
            let (es, rest2) ← parseArrItems fuel rest
            some (.listV es, rest2))
    | '\x7b' :: rest =>
        (match skipWs rest with
         | '\x7d' :: rest2 => some (.dictV [], rest2)
         | _ => do
            let (kvs, rest2) ← parseObjItems fuel rest
            some (.dictV kvs, rest2))
    | '-' :: rest =>
        (match takeDigits rest with
         | ([], _) => none
         | (ds, rest2) => some (.intV (-(digitsToNat ds : Int)), rest2))
    | c :: rest =>
        if c.isDigit then
          let (ds, rest2) := takeDigits (c :: rest)
          some (.intV (digitsToNat ds : Int), rest2)
        else none

/-- Comma-separated JSON array items up to the closing bracket. -/
def parseArrItems : Nat → List Char → Option (List PyValue × List Char)
  | 0, _ => none
  | fuel + 1, cs => do
      let (v, rest) ← parseVal fuel cs
      match skipWs rest with
      | ',' :: rest2 => do
          let (vs, rest3) ← parseArrItems fuel rest2
          some (v :: vs, rest3)
      | ']' :: rest2 => some ([v], rest2)
      | _ => none

/-- Comma-separated JSON object entries up to the closing brace. -/
def parseObjItems : Nat → List Char → Option (List (String × PyValue) × List Char)
  | 0, _ => none
  | fuel + 1, cs =>
      match skipWs cs with
      | '"' :: rest => do
          let (k, rest2) ← parseStrBody rest
          match skipWs rest2 with
          | ':' :: rest3 => do
              let (v, rest4) ← parseVal fuel rest3
              match skipWs rest4 with
              | ',' :: rest5 => do
                  let (kvs, rest6) ← parseObjItems fuel rest5
                  some ((k, v) :: kvs, rest6)
              | '\x7d' :: rest5 => some ([(k, v)], rest5)
              | _ => none
          | _ => none
      | _ => none

end

/-- `json.loads`: parses a complete JSON document; any leftover non-space
input is a decode error (`none` models a raised `JSONDecodeError`). -/
def jsonLoads (s : String) : Option PyValue :=
  match parseVal (s.length + 1) s.toList with
  | some (v, rest) => if skipWs rest = [] then some v else none
  | none => none

/-- One member of a regex/glob character class: a single character or an
inclusive range. -/
inductive ClsItem where
  | single (c : Char)
  | range (lo hi : Char)
  deriving DecidableEq, Repr

/-- Regular-expression core shared by the `re` model and the
`fnmatch.translate` model. `dot` is `.` (any character except newline);
`anyCh` is the dot-all variant the glob translation uses. -/
inductive RegexAst where
  | nul
  | eps
  | chr (c : Char)
  | dot
  | anyCh
  | cls (neg : Bool) (items : List ClsItem)
  | seq (a b : RegexAst)
  | alt (a b : RegexAst)
  | star (a : RegexAst)
  deriving DecidableEq, Repr

/-- Does the expression accept the empty string? -/
def nullable : RegexAst → Bool
  | .nul => false
  | .eps => true
  | .chr _ => false
  | .dot => false
  | .anyCh => false
  | .cls _ _ => false
  | .seq a b => nullable a && nullable b
  | .alt a b => nullable a || nullable b
  | .star _ => true

/-- Does one class item cover the character? -/
def clsItemMatch (c : Char) : ClsItem → Bool
  | .single a => a = c
  | .range lo hi => decide (lo ≤ c) && decide (c ≤ hi)

/-- Class membership, with negation. -/
def matchesCls (neg : Bool) (items : List ClsItem) (c : Char) : Bool :=
  let m := items.any (clsItemMatch c)
  if neg then !m else m

/-- Brzozowski derivative of the expression by one character. -/
def derivA (c : Char) : RegexAst → RegexAst
  | .nul => .nul
  | .eps => .nul
  | .chr a => if a = c then .eps else .nul
  | .dot => if c = '\n' then .nul else .eps
  | .anyCh => .eps
  | .cls neg items => if matchesCls neg items c then .eps else .nul
  | .seq a b =>
      if nullable a then .alt (.seq (derivA c a) b) (derivA c b)
      else .seq (derivA c a) b
  | .alt a b => .alt (derivA c a) (derivA c b)
  | .star a => .seq (derivA c a) (.star a)

/-- Whole-input match (`s` is entirely in the language). -/
def fullMatch (r : RegexAst) : List Char → Bool
  | [] => nullable r
  | c :: cs => fullMatch (derivA c r) cs

/-- Match at position 0 (`Pattern.match` semantics: some prefix of the
input, possibly empty, is in the language). -/
def matchFrom0 (r : RegexAst) : List Char → Bool
  | [] => nullable r
  | c :: cs => nullable r || matchFrom0 (derivA c r) cs

/-- Turns the raw characters of a class body into items, folding `a-b`
runs into ranges (a trailing or leading `-` stays literal). -/
def clsItemsOf : List Char → List ClsItem
  | a :: '-' :: b :: rest => .range a b :: clsItemsOf rest
  | a :: rest => .single a :: clsItemsOf rest
  | [] => []

/-- Scans a class body for the closing `]`; returns the body characters and
the remaining input, or `none` when the class is unterminated. -/
def scanCls (acc : List Char) : List Char → Option (List Char × List Char)
  | [] => none
  | ']' :: cs => some (acc.reverse, cs)
  | c :: cs => scanCls (c :: acc) cs

/-- Reads a character class after the opening `[`, with `negCh` as the
negation marker (`^` for regex, `!` for globs).  A `]` in first position is
a literal member.  Unterminated classes give `none`. -/
def parseCls (negCh : Char) (cs : List Char) : Option (Bool × List ClsItem × List Char) :=
  let (neg, cs1) := match cs with
    | c :: rest => if c = negCh then (true, rest) else (false, cs)
    | [] => (false, cs)
  let scanned := match cs1 with
    | ']' :: rest => (scanCls [']'] rest)
    | _ => scanCls [] cs1
  match scanned with
  | some (body, rest) => some (neg, clsItemsOf body, rest)
  | none => none

/-- One regex atom: an escaped literal, `.`, a class, or a plain character.
Metacharacters that need surrounding context (`* + ? | ^ $`) and the
constructs outside the modelled fragment (groups, counted repeats) are
rejected here, making the enclosing compile fail. -/
def parseAtom : List Char → Option (RegexAst × List Char)
  | [] => none
  | '\\' :: [] => none
  | '\\' :: c :: cs => some (.chr c, cs)
  | '.' :: cs => some (.dot, cs)
  | '[' :: cs =>
      (match parseCls '^' cs with
       | some (neg, items, rest) => some (.cls neg items, rest)
       | none => none)
  | c :: cs =>
      if c = '*' ∨ c = '+' ∨ c = '?' ∨ c = '|' ∨ c = '^' ∨ c = '$' ∨
         c = '(' ∨ c = ')' ∨ c = '\x7b' ∨ c = '\x7d' then none
      else some (.chr c, cs)

/-- Applies any run of `* + ?` repeat operators to the atom just parsed. -/
def applyReps (a : RegexAst) : List Char → RegexAst × List Char
  | '*' :: cs => applyReps (.star a) cs
  | '+' :: cs => applyReps (.seq a (.star a)) cs
  | '?' :: cs => applyReps (.alt a .eps) cs
  | cs => (a, cs)

/-- Parses a sequence of atoms up to a top-level `|` or the end of input. -/
def parseSeqAux (fuel : Nat) (acc : RegexAst) (cs : List Char) : Option (RegexAst × List Char) :=
  match fuel, cs with
  | _, [] => some (acc, [])
  | _, '|' :: rest => some (acc, '|' :: rest)
  | 0, _ => none
  | fuel + 1, cs => do
      let (a, cs2) ← parseAtom cs
      let (a2, cs3) := applyReps a cs2
      parseSeqAux fuel (.seq acc a2) cs3

/-- Parses a `|`-separated alternation of sequences. -/
def parseAlts (fuel : Nat) (cs : List Char) : Option RegexAst :=
  match fuel with
  | 0 => none
  | fuel + 1 =>
    match parseSeqAux (cs.length + 1) .eps cs with
    | some (a, []) => some a
    | some (a, _ :: rest) => (parseAlts fuel rest).map (RegexAst.alt a)
    | none => none

/-- A compiled pattern: the expression body plus whether the pattern ended
with a `$` end-anchor (a leading `^` is dropped: it is a no-op under the
`Pattern.match` position-0 semantics). -/
structure Regex where
  ast : RegexAst
  fullAnchor : Bool
  deriving DecidableEq, Repr

/-- Does the pattern end in an unescaped `$` anchor? -/
def endsAnchored (cs : List Char) : Bool :=
  match cs.reverse with
  | '$' :: '\\' :: _ => false
  | '$' :: _ => true
  | _ => false

/-- `re.compile`, over the modelled fragment: strips a leading `^` and a
trailing `$`, then parses the body; `none` models a raised `re.error`. -/
def reCompile (p : String) : Option Regex :=
  let cs0 := p.toList
  let cs1 := match cs0 with
    | '^' :: rest => rest
    | rest => rest
  let anchored := endsAnchored cs1
  let body := if anchored then cs1.dropLast else cs1
  (parseAlts (body.length + 1) body).map (fun a => ⟨a, anchored⟩)

/-- `Pattern.match(name)` truthiness: anchored patterns must cover the whole
input, unanchored ones any prefix from position 0. -/
def reMatch (r : Regex) (s : String) : Bool :=
  if r.fullAnchor then fullMatch r.ast s.toList else matchFrom0 r.ast s.toList

/-- `fnmatch.translate`: turns a glob into the regex core (`*` → any run,
`?` → any one character, `[...]` → class with `!` negation; an unterminated
`[` is a literal).  Fuel is the pattern length, which the translation never
exhausts since every step consumes at least one character. -/
def globTranslate : Nat → List Char → RegexAst
  | 0, _ => .eps
  | _ + 1, [] => .eps
  | fuel + 1, '*' :: ps => .seq (.star .anyCh) (globTranslate fuel ps)
  | fuel + 1, '?' :: ps => .seq .anyCh (globTranslate fuel ps)
  | fuel + 1, '[' :: ps =>
      (match parseCls '!' ps with
       | some (neg, items, rest) => .seq (.cls neg items) (globTranslate fuel rest)
       | none => .seq (.chr '[') (globTranslate fuel ps))
  | fuel + 1, c :: ps => .seq (.chr c) (globTranslate fuel ps)

/-- `fnmatch.fnmatch(name, pat)` on a case-sensitive (POSIX) platform:
whole-string match of the translated glob. -/
def fnmatch (name pat : String) : Bool :=
  fullMatch (globTranslate (pat.length + 1) pat.toList) name.toList

example : reCompile "get_[thing" = none := by decide
example : (reCompile "^get_[^_]+$").isSome = true := by decide
example : (reCompile "^get_[^_]+$").map (fun r => reMatch r "get_thing") = some true := by decide
example : (reCompile "^get_[^_]+$").map (fun r => reMatch r "get_thing_x") = some false := by decide
example : (reCompile "get_*").map (fun r => reMatch r "get_thing") = some true := by decide
example : fnmatch "get_thing" "get_thing" = true := by decide
example : fnmatch "get_things" "get_thing" = false := by decide
example : fnmatch "get_things" "get_*" = true := by decide

/-- The four CRUD buckets. -/
inductive CrudType where
  | create
  | read
  | update
  | delete
  deriving DecidableEq, Repr

/-- One bucket's entry in `_compiled_patterns`: the successfully compiled
regex patterns and the glob pattern strings, each in source-list order. -/
structure CompiledBucket where
  regex : List Regex
  glob : List String
  deriving DecidableEq, Repr

/-- The `_compiled_patterns` dict once `compile_patterns` has filled it:
one `CompiledBucket` per CRUD type. -/
structure CompiledCache where
  create : CompiledBucket
  read : CompiledBucket
  update : CompiledBucket
  delete : CompiledBucket
  deriving DecidableEq, Repr

/-- Module-level default: create bucket disabled. -/
def AUTOTOOL_CRUD_CONTROLS_CREATE : Bool := false
/-- Module-level default: read bucket enabled. -/
def AUTOTOOL_CRUD_CONTROLS_READ : Bool := true
/-- Module-level default: update bucket disabled. -/
def AUTOTOOL_CRUD_CONTROLS_UPDATE : Bool := false
/-- Module-level default: delete bucket disabled. -/
def AUTOTOOL_CRUD_CONTROLS_DELETE : Bool := false

/-- Default create pattern list (the Python raw-string literal
`r"^create_[^_]+$"` denotes exactly these characters). -/
def AUTOTOOL_CRUD_CONTROLS_CREATE_LIST : List String := ["^create_[^_]+$", "create_*"]
/-- Default read pattern list. -/
def AUTOTOOL_CRUD_CONTROLS_READ_LIST : List String := ["^get_[^_]+$", "get_*"]
/-- Default update pattern list. -/
def AUTOTOOL_CRUD_CONTROLS_UPDATE_LIST : List String := ["^update_[^_]+$", "update_*"]
/-- Default delete pattern list. -/
def AUTOTOOL_CRUD_CONTROLS_DELETE_LIST : List String := ["^delete_[^_]+$", "delete_*"]

/-- The `CrudControls` pydantic model: four enable flags, four pattern
lists, and the `_compiled_patterns` cache (`none` is the initial empty
dict). -/
structure CrudControls where
  create : Bool := AUTOTOOL_CRUD_CONTROLS_CREATE
  create_list : List String := AUTOTOOL_CRUD_CONTROLS_CREATE_LIST
  read : Bool := AUTOTOOL_CRUD_CONTROLS_READ
  read_list : List String := AUTOTOOL_CRUD_CONTROLS_READ_LIST
  update : Bool := AUTOTOOL_CRUD_CONTROLS_UPDATE
  update_list : List String := AUTOTOOL_CRUD_CONTROLS_UPDATE_LIST
  delete : Bool := AUTOTOOL_CRUD_CONTROLS_DELETE
  delete_list : List String := AUTOTOOL_CRUD_CONTROLS_DELETE_LIST
  compiledCache : Option CompiledCache := none
  deriving DecidableEq, Repr

/-- `CrudControls()` with every field defaulted, as the validator fills it. -/
def defaultCrudControls : CrudControls := {}

/-- `str.startswith`, computed on the character lists (semantically the
same as `String.startsWith`, but reduces inside the kernel). -/
def strStartsWith (s pre : String) : Bool :=
  pre.toList.isPrefixOf s.toList

/-- The regex metacharacter sniff set `.^$*+?{}[]|\()` of
`_is_regex_pattern`. -/
def regexChars : List Char := ".^$*+?\x7b\x7d[]|\\()".toList

/-- `CrudControls._is_regex_pattern`: the pattern text starts with an
`r"`/`r'` marker or contains a regex metacharacter. -/
def isRegexPattern (p : String) : Bool :=
  strStartsWith p "r\"" || strStartsWith p "r\x27" ||
    p.toList.any (fun c => regexChars.contains c)

/-- The `pattern[2:-1]` strip applied when the text carries an `r"`/`r'`
marker. -/
def stripRQuote (p : String) : String :=
  if strStartsWith p "r\"" || strStartsWith p "r\x27" then
    ⟨(p.toList.drop 2).dropLast⟩
  else p

/-- The per-bucket loop body of `CrudControls.compile_patterns`: sniffed
regex patterns are stripped and compiled, a compile failure demotes the
stripped text to the glob list, and unsniffed patterns go to the glob list
directly; both lists keep source order. -/
def compileList : List String → CompiledBucket
  | [] => ⟨[], []⟩
  | p :: ps =>
      let rest := compileList ps
      if isRegexPattern p then
        let q := stripRQuote p
        match reCompile q with
        | some r => ⟨r :: rest.regex, rest.glob⟩
        | none => ⟨rest.regex, q :: rest.glob⟩
      else ⟨rest.regex, p :: rest.glob⟩

/-- The value `compile_patterns` stores: each bucket's list compiled. -/
def deriveCache (c : CrudControls) : CompiledCache :=
  ⟨compileList c.create_list, compileList c.read_list,
   compileList c.update_list, compileList c.delete_list⟩

/-- `CrudControls.compile_patterns`: clears and rebuilds the cache from the
four pattern lists. -/
def compilePatterns (c : CrudControls) : CrudControls :=
  { c with compiledCache := some (deriveCache c) }

/-- The `getattr(self, crud_type, False)` enable-flag read. -/
def bucketEnabled (c : CrudControls) : CrudType → Bool
  | .create => c.create
  | .read => c.read
  | .update => c.update
  | .delete => c.delete

/-- The `self._compiled_patterns[crud_type]` read. -/
def cacheBucket (cc : CompiledCache) : CrudType → CompiledBucket
  | .create => cc.create
  | .read => cc.read
  | .update => cc.update
  | .delete => cc.delete

/-- `CrudControls.matches_pattern`: lazily compiles the cache when empty,
returns `false` for a disabled bucket, otherwise tries the bucket's regex
patterns (`Pattern.match`) then its glob patterns (`fnmatch`). -/
def matchesPattern (c : CrudControls) (funcName : String) (t : CrudType) : Bool :=
  let cc := match c.compiledCache with
    | some cc => cc
    | none => deriveCache c
  if !bucketEnabled c t then false
  else
    let b := cacheBucket cc t
    b.regex.any (fun r => reMatch r funcName) || b.glob.any (fun g => fnmatch funcName g)

/-- One callable member of the wrapped SDK object: its doc text (possibly
absent) and its behaviour as a function of positional and keyword
arguments, returning a value or raising. -/
structure SdkMember where
  doc : Option String
  impl : List PyValue → List (String × PyValue) → Except PyExc PyValue

/-- One attribute of the SDK object, as reflection sees it: a callable
member or a plain (non-callable) value. -/
inductive ClientAttr where
  | method (m : SdkMember)
  | attrVal (v : PyValue)

/-- The wrapped SDK object: its attributes keyed by name. -/
structure SdkClient where
  members : List (String × ClientAttr)

/-- The `client` constructor argument.  The expected shape is a dict with a
`"client"` key; the other cases model a dict missing the key and a
non-subscriptable object. -/
inductive ClientParam where
  | wrapped (inner : SdkClient)
  | dictNoKey
  | notSubscriptable (tyName : String)

/-- The `self.client["client"]` subscript and the exception Python raises
when the argument does not have the expected shape. -/
def getClientItem : ClientParam → Except PyExc SdkClient
  | .wrapped inner => .ok inner
  | .dictNoKey => .error ⟨"KeyError", "client"⟩
  | .notSubscriptable ty => .error ⟨"TypeError", "the " ++ ty ++ " object is not subscriptable"⟩

/-- Attribute lookup on the SDK object, as a pure dictionary read. -/
def lookupAttr (c : SdkClient) (name : String) : Option ClientAttr :=
  (c.members.find? (fun m => m.fst == name)).map Prod.snd

/-- `getattr(client, name)`: raises `AttributeError` when absent. -/
def getattrC (c : SdkClient) (name : String) : Except PyExc ClientAttr :=
  match lookupAttr c name with
  | some a => .ok a
  | none => .error ⟨"AttributeError", "object has no attribute " ++ name⟩

/-- `callable(...)` on an attribute. -/
def isCallableA : ClientAttr → Bool
  | .method _ => true
  | .attrVal _ => false

/-- Code-point lexicographic order on character lists, as Python's string
comparison uses. -/
def lexLt : List Char → List Char → Bool
  | [], [] => false
  | [], _ :: _ => true
  | _ :: _, [] => false
  | a :: as, b :: bs =>
      if a.toNat < b.toNat then true
      else if b.toNat < a.toNat then false
      else lexLt as bs

/-- Insertion into an alphabetically sorted name list. -/
def insertSorted (s : String) : List String → List String
  | [] => [s]
  | x :: xs => if lexLt x.toList s.toList then x :: insertSorted s xs else s :: x :: xs

/-- `dir(client)`: the attribute names in sorted order. -/
def dirClient (c : SdkClient) : List String :=
  (c.members.map Prod.fst).foldr insertSorted []

/-- The `tool_input` argument of `AutoTool._run`: absent, a text payload,
or a mapping. -/
inductive ToolInput where
  | noneInput
  | strInput (s : String)
  | dictInput (entries : List (String × PyValue))

/-- The input-normalization step of `_run`: a dict is used as-is, a string
goes through `json.loads` with the `JSONDecodeError` fallback to `{}`
(permissive decode), anything else is `{}`.  Note a string that decodes to
a non-dict JSON value is kept as that value, exactly as in the source. -/
def normalizeParams : ToolInput → PyValue
  | .dictInput d => .dictV d
  | .strInput s =>
      (match jsonLoads s with
       | some v => v
       | none => .dictV [])
  | .noneInput => .dictV []

/-- The keyword-argument assembly of the call `func(*args, **params,
**kwargs)`: Python raises `TypeError` when `params` is not a mapping, and
raises `TypeError` (duplicate keyword argument) when the two mappings share
a key; otherwise the call sees `params` entries followed by `kwargs`
entries. -/
def mergeKwargs (params : PyValue) (kwargs : List (String × PyValue)) :
    Except PyExc (List (String × PyValue)) :=
  match params with
  | .dictV d =>
      (match kwargs.find? (fun kv => d.any (fun pv => pv.fst == kv.fst)) with
       | some kv => .error ⟨"TypeError", "got multiple values for keyword argument " ++ kv.fst⟩
       | none => .ok (d ++ kwargs))
  | _ => .error ⟨"TypeError", "argument after ** must be a mapping"⟩

/-- Calling the looked-up attribute: a method runs its body, a non-callable
value raises `TypeError`. -/
def callAttr (a : ClientAttr) (args : List PyValue) (kw : List (String × PyValue)) :
    Except PyExc PyValue :=
  match a with
  | .method m => m.impl args kw
  | .attrVal _ => .error ⟨"TypeError", "object is not callable"⟩

/-- The result-normalization step of `_run`: a dict passes through, a
non-text iterator/iterable is drained into a concrete list (a list is
rebuilt element-for-element by `list(...)`), everything else passes
through. -/
def normalizeResult : PyValue → PyValue
  | .dictV d => .dictV d
  | .genV es => .listV es
  | .listV es => .listV es
  | v => v

/-- The body of `AutoTool._run`'s `try` block: normalize the input, resolve
`self.client["client"]`, resolve the member by name, assemble the keyword
arguments, call, normalize, serialize. -/
def runToolBody (client : ClientParam) (name : String) (input : ToolInput)
    (args : List PyValue) (kwargs : List (String × PyValue)) : Except PyExc String := do
  let params := normalizeParams input
  let inner ← getClientItem client
  let func ← getattrC inner name
  let kw ← mergeKwargs params kwargs
  let result ← callAttr func args kw
  pure (jsonDumps (normalizeResult result))

/-- `AutoTool._run`: the `try` body with `except AttributeError` mapped to
the sentinel diagnostic string; every other exception class propagates. -/
def runTool (client : ClientParam) (name : String) (input : ToolInput)
    (args : List PyValue) (kwargs : List (String × PyValue)) : Except PyExc String :=
  match runToolBody client name input args kwargs with
  | .ok s => .ok s
  | .error e =>
      if e.cls = "AttributeError" then .ok ("Invalid function name: " ++ name)
      else .error e

/-- An `AutoTool` as data: the member name and the (validated, mandatory)
description string. -/
structure Operation where
  name : String
  description : String
  deriving DecidableEq, Repr

/-- The `AutoTool(client=..., name=..., description=func.__doc__)`
construction.  `AutoTool.description` is annotated `str`, so pydantic
rejects a `None` doc with a `ValidationError`. -/
def mkAutoTool (n : String) (doc : Option String) : Except PyExc Operation :=
  match doc with
  | some d => .ok ⟨n, d⟩
  | none => .error ⟨"ValidationError", "description: input should be a valid string"⟩

/-- The doc text reflection reads off an attribute (`func.__doc__`). -/
def attrDoc : ClientAttr → Option String
  | .method m => m.doc
  | .attrVal _ => none

/-- `AutoToolWrapper._build_operations`: resolve `client["client"]`, list
its callable non-underscore attribute names in `dir` order, and for each
construct the `AutoTool` (which validates the doc string) and keep it when
any of the four buckets approves the name.  Any exception raised along the
way propagates, so either a complete operation list or an error is
produced. -/
def buildOperations (crud : CrudControls) (client : ClientParam) :
    Except PyExc (List Operation) := do
  let inner ← getClientItem client
  let sdkFunctions := (dirClient inner).filter (fun n =>
    (match lookupAttr inner n with
     | some a => isCallableA a
     | none => false) && !strStartsWith n "_")
  sdkFunctions.foldlM (fun ops n => do
    let doc := match lookupAttr inner n with
      | some a => attrDoc a
      | none => none
    let op ← mkAutoTool n doc
    let shouldAdd := [CrudType.create, .read, .update, .delete].any
      (fun t => matchesPattern crud n t)
    pure (if shouldAdd then ops ++ [op] else ops)) []

/-- Claim C4: for every Operation and invocation input, if the member name
is absent from the client at call time, the invocation returns the string
`"Invalid function name: "` followed by the name — a value, not a raised
exception. -/
theorem c4_absent_name_returns_sentinel (inner : SdkClient) (name : String)
    (input : ToolInput) (args : List PyValue) (kwargs : List (String × PyValue))
    (h : lookupAttr inner name = none) :
    runTool (.wrapped inner) name input args kwargs
      = .ok ("Invalid function name: " ++ name) := by
  simp [runTool, runToolBody, Bind.bind, Except.bind, getClientItem, getattrC, h]

/-- A client exposing only `get_thing`, used to witness C4. -/
def c4Client : SdkClient :=
  ⟨[("get_thing", .method ⟨some "Gets Thing", fun _ _ => .ok (.dictV [("status", .intV 200)])⟩)]⟩

/-- Witness for C4 at the absent name `"missing"`. -/
theorem c4_witness :
    lookupAttr c4Client "missing" = none ∧
    runTool (.wrapped c4Client) "missing" .noneInput [] []
      = .ok ("Invalid function name: " ++ "missing") :=
  ⟨rfl, c4_absent_name_returns_sentinel c4Client "missing" .noneInput [] [] rfl⟩

/-- Claim C5: a disabled bucket never approves any name, whatever the
bucket's pattern lists contain. -/
theorem c5_disabled_bucket_never_approves (c : CrudControls) (n : String) (t : CrudType)
    (h : bucketEnabled c t = false) : matchesPattern c n t = false := by
  simp [matchesPattern, h]

/-- Controls with the read bucket disabled but patterns that would match. -/
def c5Controls : CrudControls := { read := false, read_list := ["get_thing", "get_*"] }

/-- Witness for C5: `get_thing` is rejected by the disabled read bucket
even though both of its patterns cover the name. -/
theorem c5_witness :
    bucketEnabled c5Controls .read = false ∧
    fnmatch "get_thing" "get_thing" = true ∧
    matchesPattern c5Controls "get_thing" .read = false :=
  ⟨rfl, by decide, c5_disabled_bucket_never_approves c5Controls "get_thing" .read rfl⟩

/-- Claim C7: pattern compilation is idempotent — compiling twice leaves
the controls exactly as compiling once does, so every `approved(name,
bucket)` answer is unchanged. -/
theorem c7_compilation_idempotent (c : CrudControls) (n : String) (t : CrudType) :
    compilePatterns (compilePatterns c) = compilePatterns c ∧
    matchesPattern (compilePatterns (compilePatterns c)) n t
      = matchesPattern (compilePatterns c) n t := by
  constructor <;> rfl

/-- The C8 configuration: read enabled with the literal list
`["get_thing"]`, the other three buckets disabled (their lists keep the
module defaults, as the validator fills them). -/
def c8Controls : CrudControls :=
  { read := true, read_list := ["get_thing"], create := false, update := false, delete := false }

/-- The C8 client: members `get_things`, `get_thing` and `create_thing`. -/
def c8Client : ClientParam := .wrapped
  ⟨[("get_things", .method ⟨some "Gets Things", fun _ _ => .ok (.dictV [("status", .intV 200)])⟩),
    ("get_thing", .method ⟨some "Gets Thing", fun _ _ => .ok (.dictV [("status", .intV 200)])⟩),
    ("create_thing", .method ⟨some "Creates Thing", fun _ _ => .ok (.dictV [("status", .intV 200)])⟩)]⟩

/-- Claim C8: with read enabled, `read_list = ["get_thing"]` and the other
buckets disabled, the operation set built over
`{get_things, get_thing, create_thing}` is exactly the one operation
`get_thing`: the literal pattern matches by whole-string glob comparison,
so the prefix-sharing `get_things` is excluded. -/
theorem c8_exact_literal_match :
    buildOperations c8Controls c8Client
      = .ok [⟨"get_thing", "Gets Thing"⟩] := by
  rfl

/-- Controls with only the read bucket enabled, carrying the given pattern
list, the other buckets disabled and empty. -/
def readOnlyControls (l : List String) : CrudControls :=
  { create := false, create_list := [], read := true, read_list := l,
    update := false, update_list := [], delete := false, delete_list := [] }

/-- Claim C6: a pattern sniffed as regex whose compilation fails never
raises: it lands (stripped) on the glob side of the compiled bucket, and a
bucket holding only such a pattern approves exactly the names the glob
matcher accepts for it. -/
theorem c6_failed_regex_falls_back_to_glob (L : List String) (p n : String)
    (hmem : p ∈ L) (hsniff : isRegexPattern p = true)
    (hfail : reCompile (stripRQuote p) = none) :
    stripRQuote p ∈ (compileList L).glob ∧
    matchesPattern (readOnlyControls [p]) n .read = fnmatch n (stripRQuote p) := by
  constructor
  · induction L with
    | nil => cases hmem
    | cons q qs ih =>
      rcases List.mem_cons.mp hmem with h | h
      · subst h
        simp [compileList, hsniff, hfail]
      · have hq := ih h
        by_cases hreg : isRegexPattern q = true
        · cases hrc : reCompile (stripRQuote q) with
          | none => simp [compileList, hreg, hrc, hq]
          | some r => simp [compileList, hreg, hrc, hq]
        · simp [compileList, hreg, hq]
  · simp [matchesPattern, readOnlyControls, deriveCache, compileList, hsniff, hfail,
          bucketEnabled, cacheBucket]

/-- Witness for C6: `"get_[thing"` is sniffed as regex (it contains `[`),
fails to compile (unterminated class, a genuine `re.error` in Python too),
and degrades to glob matching. -/
theorem c6_witness :
    isRegexPattern "get_[thing" = true ∧
    reCompile (stripRQuote "get_[thing") = none ∧
    (stripRQuote "get_[thing" ∈ (compileList ["get_*", "get_[thing"]).glob ∧
     matchesPattern (readOnlyControls ["get_[thing"]) "get_thing" .read
       = fnmatch "get_thing" (stripRQuote "get_[thing")) :=
  ⟨by decide, by decide,
   c6_failed_regex_falls_back_to_glob ["get_*", "get_[thing"] "get_[thing" "get_thing"
     (by simp) (by decide) (by decide)⟩

/-- The member used in the C1 collision counterexample: echoes its keyword
arguments back as a dict. -/
def c1Member : SdkMember := ⟨some "Does Thing", fun _ kw => .ok (.dictV kw)⟩

/-- A client exposing `do_thing`. -/
def c1Inner : SdkClient := ⟨[("do_thing", .method c1Member)]⟩

/-- Claim C1 counterexample: with normalized input `{"a": 1}` and extra
keyword arguments `{"a": 2}` sharing the key `"a"`, the call does NOT
succeed with a merged last-wins argument set — Python's
`func(*args, **params, **kwargs)` raises the duplicate-keyword `TypeError`,
which propagates out of the adapter. -/
theorem c1_counterexample :
    runTool (.wrapped c1Inner) "do_thing" (.dictInput [("a", .intV 1)]) [] [("a", .intV 2)]
      = .error ⟨"TypeError", "got multiple values for keyword argument " ++ "a"⟩ := by
  rfl

/-- Claim C1 amended: whenever the normalized input mapping and
`keyword_args` share a key, the invocation fails with a duplicate-keyword
`TypeError` that propagates uncaught (there is no last-wins merge). -/
theorem c1_collision_raises_type_error (inner : SdkClient) (name : String)
    (attr : ClientAttr) (d : List (String × PyValue)) (args : List PyValue)
    (kwargs : List (String × PyValue))
    (hattr : lookupAttr inner name = some attr)
    (hcol : (kwargs.find? (fun kv => d.any (fun pv => pv.fst == kv.fst))).isSome = true) :
    ∃ k, runTool (.wrapped inner) name (.dictInput d) args kwargs
      = .error ⟨"TypeError", "got multiple values for keyword argument " ++ k⟩ := by
  obtain ⟨kv, hkv⟩ := Option.isSome_iff_exists.mp hcol
  refine ⟨kv.fst, ?_⟩
  simp [runTool, runToolBody, Bind.bind, Except.bind, getClientItem, getattrC, hattr,
        normalizeParams, mergeKwargs, hkv]

/-- Witness for the amended C1 at input mapping `{"a": 1}` and keyword
arguments `{"b": 2, "a": 5}`. -/
theorem c1_witness :
    lookupAttr c1Inner "do_thing" = some (.method c1Member) ∧
    (([("b", PyValue.intV 2), ("a", PyValue.intV 5)].find?
        (fun kv => [("a", PyValue.intV 1)].any (fun pv => pv.fst == kv.fst))).isSome = true) ∧
    ∃ k, runTool (.wrapped c1Inner) "do_thing" (.dictInput [("a", .intV 1)]) []
        [("b", .intV 2), ("a", .intV 5)]
      = .error ⟨"TypeError", "got multiple values for keyword argument " ++ k⟩ :=
  ⟨rfl, by decide,
   c1_collision_raises_type_error c1Inner "do_thing" (.method c1Member)
     [("a", .intV 1)] [] [("b", .intV 2), ("a", .intV 5)] rfl (by decide)⟩

/-- A member whose body raises `AttributeError`. -/
def c2Member : SdkMember :=
  ⟨some "Raises inside", fun _ _ => .error ⟨"AttributeError", "raised inside the member body"⟩⟩

/-- A client exposing `boom`, whose body raises `AttributeError`. -/
def c2Inner : SdkClient := ⟨[("boom", .method c2Member)]⟩

/-- Claim C2 counterexample: the member name `boom` resolves on the client,
its body raises `AttributeError` — and the adapter does NOT let it
propagate: the blanket `except AttributeError` catches it and returns the
misleading sentinel string. -/
theorem c2_counterexample :
    runTool (.wrapped c2Inner) "boom" .noneInput [] []
      = .ok ("Invalid function name: " ++ "boom") := by
  rfl

/-- Claim C2 amended: an exception raised by the wrapped member propagates
uncaught exactly when its class is not `AttributeError`; an
`AttributeError` raised anywhere inside the `try` block — member body
included, not only member resolution — is caught and turned into the
sentinel string. -/
theorem c2_member_exception_propagation (inner : SdkClient) (name : String) (m : SdkMember)
    (input : ToolInput) (args : List PyValue) (kwargs kw : List (String × PyValue)) (e : PyExc)
    (hattr : lookupAttr inner name = some (.method m))
    (hmerge : mergeKwargs (normalizeParams input) kwargs = .ok kw)
    (himpl : m.impl args kw = .error e) :
    runTool (.wrapped inner) name input args kwargs
      = (if e.cls = "AttributeError" then .ok ("Invalid function name: " ++ name)
         else .error e) := by
  simp [runTool, runToolBody, Bind.bind, Except.bind, getClientItem, getattrC, hattr, hmerge,
        callAttr, himpl]

/-- A member whose body raises `ValueError`. -/
def c2bMember : SdkMember := ⟨some "Raises", fun _ _ => .error ⟨"ValueError", "bad value"⟩⟩

/-- A client exposing `explode`, whose body raises `ValueError`. -/
def c2bInner : SdkClient := ⟨[("explode", .method c2bMember)]⟩

/-- Witness for the amended C2: a `ValueError` raised by the member body
propagates uncaught out of the invocation. -/
theorem c2_witness :
    lookupAttr c2bInner "explode" = some (.method c2bMember) ∧
    mergeKwargs (normalizeParams .noneInput) [] = .ok [] ∧
    c2bMember.impl [] [] = .error ⟨"ValueError", "bad value"⟩ ∧
    runTool (.wrapped c2bInner) "explode" .noneInput [] []
      = .error ⟨"ValueError", "bad value"⟩ :=
  ⟨rfl, rfl, rfl,
   c2_member_exception_propagation c2bInner "explode" c2bMember .noneInput [] [] []
     ⟨"ValueError", "bad value"⟩ rfl rfl rfl⟩

/-- Modelled from the spec: the spec's `ConfigurationError` failure class.
No exception class of this name exists anywhere in the source; this
predicate expresses the spec's claimed classification of construction-time
failures so that the claim can be stated against the code's behaviour. -/
def isConfigurationError (e : PyExc) : Bool := e.cls = "ConfigurationError"

/-- Claim C3 counterexample: construction over a non-reflectable client (a
bare object, not the expected `{"client": ...}` dict) fails with the raw
`TypeError` of the `client["client"]` subscript — not with any
`ConfigurationError`. -/
theorem c3_counterexample :
    buildOperations defaultCrudControls (.notSubscriptable "FakeSdk")
      = .error ⟨"TypeError", "the " ++ "FakeSdk" ++ " object is not subscriptable"⟩ ∧
    isConfigurationError ⟨"TypeError", "the " ++ "FakeSdk" ++ " object is not subscriptable"⟩
      = false :=
  ⟨rfl, rfl⟩

/-- Claim C3 amended: for every client without the expected structural
shape, construction fails by propagating the underlying lookup exception
(`TypeError` / `KeyError`) exactly as raised, and yields no operation list
at all — all-or-nothing, but with the raw exception, not a
`ConfigurationError`. -/
theorem c3_unreflectable_fails_all_or_nothing (crud : CrudControls) (client : ClientParam)
    (e : PyExc) (h : getClientItem client = .error e) :
    buildOperations crud client = .error e := by
  simp [buildOperations, Bind.bind, Except.bind, h]

/-- Witness for the amended C3: a dict missing the `"client"` key makes
construction propagate the `KeyError` with no operation set built. -/
theorem c3_witness :
    getClientItem .dictNoKey = .error ⟨"KeyError", "client"⟩ ∧
    buildOperations defaultCrudControls .dictNoKey = .error ⟨"KeyError", "client"⟩ :=
  ⟨rfl, c3_unreflectable_fails_all_or_nothing defaultCrudControls .dictNoKey
     ⟨"KeyError", "client"⟩ rfl⟩

/-- Claim C9: when the resolved member returns a lazy sequence producing
exactly three mapping values, the invocation drains it completely and
returns the JSON serialization of the concrete ordered three-element
sequence of those mappings, in production order. -/
theorem c9_generator_fully_drained (inner : SdkClient) (name : String) (m : SdkMember)
    (input : ToolInput) (args : List PyValue) (kwargs kw : List (String × PyValue))
    (ds : List (List (String × PyValue)))
    (hlen : ds.length = 3)
    (hattr : lookupAttr inner name = some (.method m))
    (hmerge : mergeKwargs (normalizeParams input) kwargs = .ok kw)
    (himpl : m.impl args kw = .ok (.genV (ds.map PyValue.dictV))) :
    runTool (.wrapped inner) name input args kwargs
      = .ok (jsonDumps (.listV (ds.map PyValue.dictV))) ∧
    (ds.map PyValue.dictV).length = 3 := by
  constructor
  · simp [runTool, runToolBody, Bind.bind, Except.bind, Pure.pure, Except.pure, getClientItem,
          getattrC, hattr, hmerge, callAttr, himpl, normalizeResult]
  · simpa using hlen

/-- The three mapping values of the C9 witness, mirroring the repository's
generator test (`status` 200, ids 100, 101, 102). -/
def c9Dicts : List (List (String × PyValue)) :=
  [[("status", .intV 200), ("response", .dictV [("id", .intV 100)])],
   [("status", .intV 200), ("response", .dictV [("id", .intV 101)])],
   [("status", .intV 200), ("response", .dictV [("id", .intV 102)])]]

/-- A member producing the three mappings lazily. -/
def c9Member : SdkMember :=
  ⟨some "Generates Things", fun _ _ => .ok (.genV (c9Dicts.map PyValue.dictV))⟩

/-- A client exposing the generator member. -/
def c9Inner : SdkClient := ⟨[("get_things_generator", .method c9Member)]⟩

/-- Witness for C9 at the concrete three-element generator. -/
theorem c9_witness :
    c9Dicts.length = 3 ∧
    lookupAttr c9Inner "get_things_generator" = some (.method c9Member) ∧
    mergeKwargs (normalizeParams .noneInput) [] = .ok [] ∧
    c9Member.impl [] [] = .ok (.genV (c9Dicts.map PyValue.dictV)) ∧
    (runTool (.wrapped c9Inner) "get_things_generator" .noneInput [] []
       = .ok (jsonDumps (.listV (c9Dicts.map PyValue.dictV))) ∧
     (c9Dicts.map PyValue.dictV).length = 3) :=
  ⟨rfl, rfl, rfl, rfl,
   c9_generator_fully_drained c9Inner "get_things_generator" c9Member .noneInput [] [] []
     c9Dicts rfl rfl rfl rfl⟩

/-- A trivial member body for the C10 scenarios. -/
def c10Impl : List PyValue → List (String × PyValue) → Except PyExc PyValue :=
  fun _ _ => .ok .noneV

/-- Claim C10 counterexample: `get_nodoc` survives the callable /
non-underscore filter and is approved by the default read bucket, but it
has no doc text — and wrapper construction does NOT produce a doc-less
operation: `AutoTool.description` is a mandatory `str`, so pydantic rejects
the `None` doc and construction fails. -/
theorem c10_counterexample :
    matchesPattern defaultCrudControls "get_nodoc" .read = true ∧
    buildOperations defaultCrudControls (.wrapped ⟨[("get_nodoc", .method ⟨none, c10Impl⟩)]⟩)
      = .error ⟨"ValidationError", "description: input should be a valid string"⟩ :=
  ⟨by decide, rfl⟩

/-- Claim C10 amended: a surviving candidate member with no documentation
text makes wrapper construction fail with the pydantic validation error —
no operation (with or without documentation) is produced for it. -/
theorem c10_missing_doc_fails_construction (crud : CrudControls) (name : String)
    (impl : List PyValue → List (String × PyValue) → Except PyExc PyValue)
    (hname : strStartsWith name "_" = false) :
    buildOperations crud (.wrapped ⟨[(name, .method ⟨none, impl⟩)]⟩)
      = .error ⟨"ValidationError", "description: input should be a valid string"⟩ := by
  simp [buildOperations, Bind.bind, Except.bind, getClientItem, dirClient, insertSorted,
        lookupAttr, isCallableA, hname, attrDoc, mkAutoTool, List.foldlM, List.filter]

/-- Witness for the amended C10 at the docless member `update_nodoc`. -/
theorem c10_witness :
    strStartsWith "update_nodoc" "_" = false ∧
    buildOperations defaultCrudControls
        (.wrapped ⟨[("update_nodoc", .method ⟨none, c10Impl⟩)]⟩)
      = .error ⟨"ValidationError", "description: input should be a valid string"⟩ :=
  ⟨by decide,
   c10_missing_doc_fails_construction defaultCrudControls "update_nodoc" c10Impl (by decide)⟩

end AutoTools
